import Mathlib

/-!
Verification development for the dental-insurance eligibility pipeline:
the transaction-based Status Deriver
(`deriveVerificationStatusFromTransactions`) and the Stedi Benefit
Normalizer (`parseStediResponse` over the static `API_VERIFICATION_DATA`
catalog).  All definitions are shallow embeddings of the TypeScript
source; theorems settle the spec's claims about them.
-/

namespace Pipeline

/-! ## Status Deriver (verificationStatusUtils) -/

/-- Transaction.type: 'FETCH' | 'API' | 'CALL' | 'FAX' | 'SAVE'. -/
inductive TxnType where
  | FETCH | API | CALL | FAX | SAVE
deriving DecidableEq, Repr, Fintype

/-- Transaction.status: 'SUCCESS' | 'PARTIAL' | 'FAILED' | 'Waiting'. -/
inductive TxnStatus where
  | SUCCESS | PARTIAL | FAILED | Waiting
deriving DecidableEq, Repr, Fintype

/-- The Transaction record.  Only the fields the Status Deriver reads are
modelled with structure (`type`, `status`, `startTime`); the remaining
required string fields are carried opaquely and the many optional
payload fields (endTime, transcript, rawResponse, ...) are elided since
no modelled code reads them.  `startTime` is a `string` in the source;
the sort comparator treats a falsy (empty) string as missing
(modelled `none`) and otherwise compares `new Date(s).getTime()`
values (modelled `some` epoch milliseconds). -/
structure Transaction where
  id : String := ""
  requestId : String := ""
  type : TxnType
  status : TxnStatus
  startTime : Option Int := none
  patientId : String := ""
  patientName : String := ""
deriving DecidableEq, Repr

/-- Each pipeline stage's derived state: 'pending' | 'in_progress' | 'completed'. -/
inductive StageStatus where
  | pending | in_progress | completed
deriving DecidableEq, Repr, Fintype

/-- The four-stage VerificationStatus vector. -/
structure VerificationStatus where
  fetchPMS : StageStatus
  apiVerification : StageStatus
  aiAnalysisAndCall : StageStatus
  saveToPMS : StageStatus
deriving DecidableEq, Repr, Fintype

/-- The initial all-pending status vector. -/
def initialStatus : VerificationStatus :=
  { fetchPMS := .pending, apiVerification := .pending
    aiAnalysisAndCall := .pending, saveToPMS := .pending }

/-- The switch body of the deriver's fold: how one transaction
(`type`, `status`) updates the status vector. -/
def applyTxnCore (s : VerificationStatus) (ty : TxnType) (st : TxnStatus) :
    VerificationStatus :=
  match ty with
  | .FETCH =>
    match st with
    | .SUCCESS => { s with fetchPMS := .completed }
    | .Waiting => { s with fetchPMS := .in_progress }
    | _ => s
  | .API =>
    match st with
    | .Waiting => { s with fetchPMS := .completed, apiVerification := .in_progress }
    | .SUCCESS | .PARTIAL => { s with fetchPMS := .completed, apiVerification := .completed }
    | _ => s
  | .FAX | .CALL =>
    match st with
    | .Waiting =>
      { s with fetchPMS := .completed, apiVerification := .completed
               aiAnalysisAndCall := .in_progress }
    | .SUCCESS | .PARTIAL =>
      { s with fetchPMS := .completed, apiVerification := .completed
               aiAnalysisAndCall := .completed }
    | _ => s
  | .SAVE =>
    match st with
    | .Waiting =>
      { s with fetchPMS := .completed, apiVerification := .completed
               aiAnalysisAndCall := .completed, saveToPMS := .in_progress }
    | .SUCCESS =>
      { s with fetchPMS := .completed, apiVerification := .completed
               aiAnalysisAndCall := .completed, saveToPMS := .completed }
    | _ => s

/-- Fold step on a whole transaction (only `type` and `status` are read). -/
def applyTxn (s : VerificationStatus) (t : Transaction) : VerificationStatus :=
  applyTxnCore s t.type t.status

/-- The sort comparator:
`if (!a.startTime) return 1; if (!b.startTime) return -1;
 return new Date(a.startTime).getTime() - new Date(b.startTime).getTime();`. -/
def jsCompare (a b : Transaction) : Int :=
  match a.startTime with
  | none => 1
  | some ta =>
    match b.startTime with
    | none => -1
    | some tb => ta - tb

/-- Insert `x` before the first element it compares `<= 0` against.
Together with `sortTransactions` this models the engine's stable
`Array.prototype.sort` on `jsCompare`: on the comparator's consistent
part (all timestamped pairs, and timestamped-vs-missing pairs) it
produces the same order; only the mutual order of several
missing-`startTime` transactions is engine-dependent, and no modelled
code depends on it. -/
def insertTxn (x : Transaction) : List Transaction → List Transaction
  | [] => [x]
  | y :: ys => if jsCompare x y ≤ 0 then x :: y :: ys else y :: insertTxn x ys

/-- `[...transactions].sort(jsCompare)` — ascending by startTime, missing
startTime pushed to the end. -/
def sortTransactions : List Transaction → List Transaction
  | [] => []
  | x :: xs => insertTxn x (sortTransactions xs)

/-- deriveVerificationStatusFromTransactions: sort ascending by startTime,
then fold each transaction's stage updates over the all-pending vector. -/
def deriveVerificationStatusFromTransactions (transactions : List Transaction) :
    VerificationStatus :=
  (sortTransactions transactions).foldl applyTxn initialStatus

/-- shouldUseTransactionBasedStatus: in Data Mode the status is derived
from transactions. -/
def shouldUseTransactionBasedStatus (dataMode : Bool) : Bool :=
  dataMode = true

/-! ### Deriver: derived notions used by the claims -/

/-- Stage names, in pipeline order. -/
inductive Stage where
  | fetchPMS | apiVerification | aiAnalysisAndCall | saveToPMS
deriving DecidableEq, Repr, Fintype

/-- Project one stage out of the status vector. -/
def getStage (s : VerificationStatus) : Stage → StageStatus
  | .fetchPMS => s.fetchPMS
  | .apiVerification => s.apiVerification
  | .aiAnalysisAndCall => s.aiAnalysisAndCall
  | .saveToPMS => s.saveToPMS

/-- Stage-ordering soundness of a status vector: a later stage is never
`completed` while an earlier stage (in the fixed order
fetchPMS → apiVerification → aiAnalysisAndCall → saveToPMS) is still
`pending`. -/
def stageOrderOK (s : VerificationStatus) : Bool :=
  (s.apiVerification != .completed || s.fetchPMS != .pending) &&
  (s.aiAnalysisAndCall != .completed ||
    (s.fetchPMS != .pending && s.apiVerification != .pending)) &&
  (s.saveToPMS != .completed ||
    (s.fetchPMS != .pending && s.apiVerification != .pending &&
     s.aiAnalysisAndCall != .pending))

/-- The deterministic set of stages a transaction of the given type and
status writes, read off the deriver's switch. -/
def updateSet (ty : TxnType) (st : TxnStatus) : List Stage :=
  match ty with
  | .FETCH =>
    match st with
    | .SUCCESS | .Waiting => [.fetchPMS]
    | _ => []
  | .API =>
    match st with
    | .Waiting | .SUCCESS | .PARTIAL => [.fetchPMS, .apiVerification]
    | _ => []
  | .FAX | .CALL =>
    match st with
    | .Waiting | .SUCCESS | .PARTIAL =>
      [.fetchPMS, .apiVerification, .aiAnalysisAndCall]
    | _ => []
  | .SAVE =>
    match st with
    | .Waiting | .SUCCESS =>
      [.fetchPMS, .apiVerification, .aiAnalysisAndCall, .saveToPMS]
    | _ => []

/-- Ordering witness between two transactions in a sorted list: whenever
the later one is timestamped, the earlier one is timestamped too and not
later. Pairwise, this says the list is ascending on timestamps with all
missing-timestamp transactions at the end. -/
def beforeOK (a b : Transaction) : Bool :=
  match b.startTime with
  | none => true
  | some tb =>
    match a.startTime with
    | none => false
    | some ta => ta ≤ tb

/-- Swap CALL and FAX transaction types, leaving everything else alone. -/
def swapCallFax (t : Transaction) : Transaction :=
  { t with type := match t.type with
                   | .CALL => .FAX
                   | .FAX => .CALL
                   | ty => ty }

/-- Collapse FAX onto CALL (the two types drive identical updates). -/
def canonTxn (t : Transaction) : Transaction :=
  { t with type := match t.type with
                   | .FAX => .CALL
                   | ty => ty }

/-! ## Benefit Normalizer (stediParser) -/

/-- ASCII lower-casing of one character, as `toLowerCase()` acts on the
ASCII range (the only range the parser's keyword matching exercises). -/
def lowerChar (c : Char) : Char :=
  if 65 ≤ c.toNat ∧ c.toNat ≤ 90 then Char.ofNat (c.toNat + 32) else c

/-- `s.toLowerCase()`. -/
def toLowerStr (s : String) : String := String.mk (s.data.map lowerChar)

/-- Does the first list start with the second one? -/
def startsWithChars : List Char → List Char → Bool
  | _, [] => true
  | [], _ :: _ => false
  | d :: ds, c :: ps => c == d && startsWithChars ds ps

/-- Occurrence of the pattern `p` anywhere in the list. -/
def containsChars (p : List Char) : List Char → Bool
  | [] => startsWithChars [] p
  | d :: ds => startsWithChars (d :: ds) p || containsChars p ds

/-- `s.includes(sub)`. -/
def jsIncludes (s sub : String) : Bool := containsChars sub.data s.data

/-- ASCII whitespace (all the whitespace the parser ever constructs). -/
def isWhite (c : Char) : Bool := c == ' ' || c == '\t' || c == '\n' || c == '\r'

/-- `s.trim()`. -/
def jsTrim (s : String) : String :=
  String.mk (((s.data.dropWhile isWhite).reverse.dropWhile isWhite).reverse)

/-- `s.padEnd(n)`: pad with spaces on the right up to length `n`. -/
def padEnd (s : String) (n : Nat) : String :=
  s ++ String.mk (List.replicate (n - s.length) ' ')

/-- JS truthiness of a possibly-absent string (`undefined` and `""` are
falsy). -/
def strTruthy : Option String → Bool
  | none => false
  | some s => !(s == "")

/-- `a || b` on possibly-absent strings. -/
def jsOr (a b : Option String) : Option String := if strTruthy a then a else b

/-- `a || dflt` with a literal (always-truthy) default. -/
def jsOrD (a : Option String) (dflt : String) : String :=
  match a with
  | some s => if s == "" then dflt else s
  | none => dflt

/-- Extract the string under a truthiness guard already established. -/
def strOf : Option String → String := fun a => a.getD ""

/-- StediBenefit: one line item of the eligibility response; every field
may be absent. -/
structure StediBenefit where
  code : Option String := none
  name : Option String := none
  serviceTypeCodes : Option (List String) := none
  serviceTypes : Option (List String) := none
  coverageLevelCode : Option String := none
  coverageLevel : Option String := none
  timeQualifierCode : Option String := none
  timeQualifier : Option String := none
  benefitAmount : Option String := none
  benefitPercent : Option String := none
  inPlanNetworkIndicatorCode : Option String := none
  inPlanNetworkIndicator : Option String := none
  procedureCode : Option String := none
deriving DecidableEq, Repr

/-- The `plan` sub-object of StediResponse. -/
structure StediPlan where
  status : Option String := none
  groupNumber : Option String := none
  groupName : Option String := none
  planName : Option String := none
  effectiveDate : Option String := none
  terminationDate : Option String := none
deriving DecidableEq, Repr

/-- The `subscriber` sub-object. -/
structure StediSubscriber where
  memberId : Option String := none
  firstName : Option String := none
  lastName : Option String := none
  dateOfBirth : Option String := none
deriving DecidableEq, Repr

/-- The `payer` sub-object. -/
structure StediPayer where
  name : Option String := none
deriving DecidableEq, Repr

/-- The `planInformation` sub-object. -/
structure StediPlanInformation where
  groupNumber : Option String := none
  groupDescription : Option String := none
deriving DecidableEq, Repr

/-- The `planDateInformation` sub-object. -/
structure StediPlanDateInformation where
  planBegin : Option String := none
  planEnd : Option String := none
  eligibilityBegin : Option String := none
deriving DecidableEq, Repr

/-- One entry of the `planStatus` array. -/
structure StediPlanStatusItem where
  description : Option String := none
  statusCode : Option String := none
deriving DecidableEq, Repr

/-- StediResponse: the raw eligibility payload; every key may be absent. -/
structure StediResponse where
  eligibilitySearchId : Option String := none
  plan : Option StediPlan := none
  benefits : Option (List StediBenefit) := none
  benefitsInformation : Option (List StediBenefit) := none
  subscriber : Option StediSubscriber := none
  payer : Option StediPayer := none
  planInformation : Option StediPlanInformation := none
  planDateInformation : Option StediPlanDateInformation := none
  planStatus : Option (List StediPlanStatusItem) := none
deriving DecidableEq, Repr

/-- VerificationDataRow: one coverage-catalog entry. -/
structure VerificationDataRow where
  saiCode : String
  refInsCode : String
  category : String
  fieldName : String
  preStepValue : String
  missing : String
  aiCallValue : String
  verifiedBy : String
deriving DecidableEq, Repr

/-- The static catalog template (constants/verificationData.ts).  The
deep copy `JSON.parse(JSON.stringify(...))` taken by the parser is the
identity on this pure value. -/
def API_VERIFICATION_DATA : List VerificationDataRow := [
  { saiCode := "VF000001", refInsCode := "D001", category := "Plan Information",
    fieldName := "Plan Name", preStepValue := "Blue Cross Dental Plus", missing := "N",
    aiCallValue := "Blue Cross Dental Plus", verifiedBy := "API" },
  { saiCode := "VF000002", refInsCode := "D002", category := "Plan Information",
    fieldName := "Group Number", preStepValue := "GRP987654", missing := "N",
    aiCallValue := "GRP987654", verifiedBy := "API" },
  { saiCode := "VF000003", refInsCode := "D003", category := "Plan Information",
    fieldName := "Effective Date", preStepValue := "01/01/2024", missing := "N",
    aiCallValue := "01/01/2024", verifiedBy := "API" },
  { saiCode := "VF000004", refInsCode := "D004", category := "Plan Information",
    fieldName := "Carrier Name", preStepValue := "Blue Cross Blue Shield", missing := "N",
    aiCallValue := "Blue Cross Blue Shield", verifiedBy := "API" },
  { saiCode := "VF000005", refInsCode := "D005", category := "Plan Information",
    fieldName := "Member ID", preStepValue := "SUB123456789", missing := "N",
    aiCallValue := "SUB123456789", verifiedBy := "API" },
  { saiCode := "VF000051", refInsCode := "D051", category := "Deductible",
    fieldName := "Annual Deductible Amount", preStepValue := "0", missing := "N",
    aiCallValue := "$0 - No Deductible", verifiedBy := "API" },
  { saiCode := "VF000052", refInsCode := "D052", category := "Deductible",
    fieldName := "Deductible Applies To", preStepValue := "Basic & Major", missing := "N",
    aiCallValue := "Basic & Major", verifiedBy := "API" },
  { saiCode := "VF000053", refInsCode := "D053", category := "Deductible",
    fieldName := "Family Deductible", preStepValue := "$0", missing := "N",
    aiCallValue := "$0", verifiedBy := "API" },
  { saiCode := "VF000010", refInsCode := "D010", category := "Preventative Coverage",
    fieldName := "Annual Cleaning Benefit", preStepValue := "2 Cleanings", missing := "N",
    aiCallValue := "2 Cleanings per Year", verifiedBy := "API" },
  { saiCode := "VF000011", refInsCode := "D011", category := "Preventative Coverage",
    fieldName := "Annual Exams", preStepValue := "2 Exams", missing := "N",
    aiCallValue := "2 Exams per Year", verifiedBy := "API" },
  { saiCode := "VF000012", refInsCode := "D012", category := "Preventative Coverage",
    fieldName := "X-ray Coverage", preStepValue := "1 FMS per 5 years", missing := "N",
    aiCallValue := "1 Full Mouth Series per 5 years", verifiedBy := "API" },
  { saiCode := "VF000020", refInsCode := "D020", category := "Basic Coverage",
    fieldName := "Fillings Coverage", preStepValue := "80%", missing := "N",
    aiCallValue := "80%", verifiedBy := "API" },
  { saiCode := "VF000021", refInsCode := "D021", category := "Basic Coverage",
    fieldName := "Extractions Coverage", preStepValue := "80%", missing := "N",
    aiCallValue := "80%", verifiedBy := "API" },
  { saiCode := "VF000022", refInsCode := "D022", category := "Basic Coverage",
    fieldName := "Scaling & Root Planing", preStepValue := "80%", missing := "N",
    aiCallValue := "80%", verifiedBy := "API" },
  { saiCode := "VF000030", refInsCode := "D030", category := "Major Coverage",
    fieldName := "Crowns Coverage", preStepValue := "50%", missing := "N",
    aiCallValue := "50%", verifiedBy := "API" },
  { saiCode := "VF000031", refInsCode := "D031", category := "Major Coverage",
    fieldName := "Bridges Coverage", preStepValue := "50%", missing := "N",
    aiCallValue := "50%", verifiedBy := "API" },
  { saiCode := "VF000032", refInsCode := "D032", category := "Major Coverage",
    fieldName := "Dentures Coverage", preStepValue := "50%", missing := "N",
    aiCallValue := "50%", verifiedBy := "API" },
  { saiCode := "VF000033", refInsCode := "D033", category := "Major Coverage",
    fieldName := "Root Canals Coverage", preStepValue := "50%", missing := "N",
    aiCallValue := "50%", verifiedBy := "API" },
  { saiCode := "VF000034", refInsCode := "D034", category := "Major Coverage",
    fieldName := "Implants Coverage", preStepValue := "Not Covered", missing := "N",
    aiCallValue := "Not Covered - Considered Cosmetic", verifiedBy := "API" },
  { saiCode := "VF000060", refInsCode := "D060", category := "Annual Maximum",
    fieldName := "Annual Maximum Benefit", preStepValue := "$1200", missing := "N",
    aiCallValue := "$1,200 per Year", verifiedBy := "API" },
  { saiCode := "VF000061", refInsCode := "D061", category := "Annual Maximum",
    fieldName := "Ortho Maximum", preStepValue := "Not Included", missing := "N",
    aiCallValue := "Not Included", verifiedBy := "API" },
  { saiCode := "VF000028", refInsCode := "D028", category := "Preventative Coverage",
    fieldName := "Prophylaxis/Exam Frequency", preStepValue := "", missing := "Y",
    aiCallValue := "", verifiedBy := "-" },
  { saiCode := "VF000029", refInsCode := "D029", category := "Preventative Coverage",
    fieldName := "Last FMS Date", preStepValue := "", missing := "Y",
    aiCallValue := "", verifiedBy := "-" },
  { saiCode := "VF000040", refInsCode := "D040", category := "Preventative Coverage",
    fieldName := "Eligible for FMS Now", preStepValue := "", missing := "Y",
    aiCallValue := "", verifiedBy := "-" },
  { saiCode := "VF000041", refInsCode := "D041", category := "Preventative Coverage",
    fieldName := "FMS Frequency (Years)", preStepValue := "", missing := "Y",
    aiCallValue := "", verifiedBy := "-" },
  { saiCode := "VF000042", refInsCode := "D042", category := "Preventative Coverage",
    fieldName := "Fluoride Varnish Frequency", preStepValue := "", missing := "Y",
    aiCallValue := "", verifiedBy := "-" },
  { saiCode := "VF000045", refInsCode := "D045", category := "Major Coverage",
    fieldName := "Major Waiting Period", preStepValue := "", missing := "Y",
    aiCallValue := "", verifiedBy := "-" },
  { saiCode := "VF000046", refInsCode := "D046", category := "Major Coverage",
    fieldName := "Major Services Effective Date", preStepValue := "", missing := "Y",
    aiCallValue := "", verifiedBy := "-" },
  { saiCode := "VF000070", refInsCode := "D070", category := "Coverage Limits",
    fieldName := "Frequency Limitations", preStepValue := "", missing := "Y",
    aiCallValue := "", verifiedBy := "-" }]

/-- The parser's return shape `{ verificationData, codeAnalysis }`. -/
structure StediParseOutcome where
  verificationData : List VerificationDataRow
  codeAnalysis : String
deriving DecidableEq, Repr

/-- `data.benefits || data.benefitsInformation || []` (a present array is
truthy even when empty). -/
def benefitsOf (d : StediResponse) : List StediBenefit :=
  match d.benefits with
  | some l => l
  | none =>
    match d.benefitsInformation with
    | some l => l
    | none => []

/-- The body of `updateRow` acting on the found row: a truthy,
non-sentinel value marks the row verified; anything else clears it to
missing. -/
def applyUpdate (value : Option String) (verified : Bool)
    (r : VerificationDataRow) : VerificationDataRow :=
  match value with
  | some v =>
    if !(v == "") && !(v == "Not Found") then
      { r with aiCallValue := v
               missing := if verified then "N" else "Y"
               verifiedBy := if verified then "API" else "-" }
    else
      { r with aiCallValue := "", missing := "Y", verifiedBy := "-" }
  | none => { r with aiCallValue := "", missing := "Y", verifiedBy := "-" }

/-- `updateRow`: find the first row with the given saiCode and overwrite
its `aiCallValue` / `missing` / `verifiedBy` in place. -/
def updateRow (saiCode : String) (value : Option String) (verified : Bool) :
    List VerificationDataRow → List VerificationDataRow
  | [] => []
  | r :: rs =>
    if r.saiCode == saiCode then applyUpdate value verified r :: rs
    else r :: updateRow saiCode value verified rs

/-- `b.name?.toLowerCase().includes(kw)` (absent name is falsy). -/
def nameIncludesKw (b : StediBenefit) (kw : String) : Bool :=
  match b.name with
  | some n => jsIncludes (toLowerStr n) kw
  | none => false

/-- `b.serviceTypes?.some(st => st.toLowerCase().includes(kw))`. -/
def serviceTypesIncludeKw (b : StediBenefit) (kw : String) : Bool :=
  match b.serviceTypes with
  | some sts => sts.any (fun st => jsIncludes (toLowerStr st) kw)
  | none => false

/-- Deductible predicate: `b.code === 'C' || name includes 'deductible'`. -/
def isDeductibleBenefit (b : StediBenefit) : Bool :=
  b.code == some "C" || nameIncludesKw b "deductible"

/-- Individual deductible line: first deductible whose coverageLevelCode
is not 'FAM'. -/
def indDeductibleOf (bs : List StediBenefit) : Option StediBenefit :=
  bs.find? (fun b => isDeductibleBenefit b && !(b.coverageLevelCode == some "FAM"))

/-- Family deductible line. -/
def famDeductibleOf (bs : List StediBenefit) : Option StediBenefit :=
  bs.find? (fun b => isDeductibleBenefit b && b.coverageLevelCode == some "FAM")

/-- Maximum predicate: `b.code === 'D' || name includes 'maximum'`. -/
def isMaximumBenefit (b : StediBenefit) : Bool :=
  b.code == some "D" || nameIncludesKw b "maximum"

/-- Annual maximum line: first maximum whose name does not mention ortho. -/
def maxBenefitOf (bs : List StediBenefit) : Option StediBenefit :=
  bs.find? (fun b => isMaximumBenefit b && !(nameIncludesKw b "ortho"))

/-- Ortho maximum line. -/
def orthoMaxOf (bs : List StediBenefit) : Option StediBenefit :=
  bs.find? (fun b => isMaximumBenefit b && nameIncludesKw b "ortho")

/-- `found?.benefitAmount` on an optional find result. -/
def amtOpt (ob : Option StediBenefit) : Option String :=
  ob.bind (fun b => b.benefitAmount)

/-- `amount ? pre + amount + suf : undefined` (amount truthy check). -/
def fmtAmt (a : Option String) (pre suf : String) : Option String :=
  match a with
  | some s => if s == "" then none else some (pre ++ s ++ suf)
  | none => none

/-- `findValue(keywords)`: first benefit matched by any keyword against
name or serviceTypes; render its percent (or 'Covered' for code '1')
plus the time qualifier, else the trimmed time qualifier, else
undefined. -/
def findValue (benefits : List StediBenefit) (keywords : List String) :
    Option String :=
  match benefits.find? (fun b =>
      keywords.any (fun kw => nameIncludesKw b kw || serviceTypesIncludeKw b kw)) with
  | none => none
  | some b =>
    let percent : Option String :=
      if strTruthy b.benefitPercent then some (strOf b.benefitPercent ++ "%")
      else if b.code == some "1" then some "Covered" else none
    let time : String :=
      if strTruthy b.timeQualifier then " (" ++ strOf b.timeQualifier ++ ")" else ""
    match percent with
    | some p => some (p ++ time)
    | none => if jsTrim time == "" then none else some (jsTrim time)

/-- Major waiting-period line. -/
def majorWaitOf (bs : List StediBenefit) : Option StediBenefit :=
  bs.find? (fun b => nameIncludesKw b "waiting period" &&
    (nameIncludesKw b "major" || serviceTypesIncludeKw b "major"))

/-- `data.plan?.planName || data.planInformation?.groupDescription ||
"Active Plan"`. -/
def planNameOf (d : StediResponse) : String :=
  jsOrD (jsOr (d.plan.bind (fun p => p.planName))
              (d.planInformation.bind (fun p => p.groupDescription)))
        "Active Plan"

/-- `data.plan?.groupNumber || data.planInformation?.groupNumber`. -/
def groupNumberOf (d : StediResponse) : Option String :=
  jsOr (d.plan.bind (fun p => p.groupNumber))
       (d.planInformation.bind (fun p => p.groupNumber))

/-- `data.plan?.effectiveDate || data.planDateInformation?.planBegin ||
data.planDateInformation?.eligibilityBegin`. -/
def effectiveDateOf (d : StediResponse) : Option String :=
  jsOr (jsOr (d.plan.bind (fun p => p.effectiveDate))
             (d.planDateInformation.bind (fun p => p.planBegin)))
       (d.planDateInformation.bind (fun p => p.eligibilityBegin))

/-- `data.payer?.name || data.plan?.groupName || data.plan?.planName ||
"Insurance Carrier"`. -/
def carrierNameOf (d : StediResponse) : String :=
  jsOrD (jsOr (jsOr (d.payer.bind (fun p => p.name))
                    (d.plan.bind (fun p => p.groupName)))
              (d.plan.bind (fun p => p.planName)))
        "Insurance Carrier"

/-- `data.subscriber?.memberId`. -/
def memberIdOf (d : StediResponse) : Option String :=
  d.subscriber.bind (fun s => s.memberId)

/-- Value passed to `updateRow("VF000051", ...)`. -/
def updVF000051 (bs : List StediBenefit) : Option String :=
  fmtAmt (amtOpt (indDeductibleOf bs)) "$" " (Individual)"

/-- Value passed to `updateRow("VF000052", ...)`:
`indDeductible?.name || indDeductible?.serviceTypes?.[0]`. -/
def updVF000052 (bs : List StediBenefit) : Option String :=
  jsOr ((indDeductibleOf bs).bind (fun b => b.name))
       ((indDeductibleOf bs).bind (fun b => b.serviceTypes.bind List.head?))

/-- Value passed to `updateRow("VF000053", ...)`. -/
def updVF000053 (bs : List StediBenefit) : Option String :=
  fmtAmt (amtOpt (famDeductibleOf bs)) "$" " (Family)"

/-- Value passed to `updateRow("VF000060", ...)`. -/
def updVF000060 (bs : List StediBenefit) : Option String :=
  fmtAmt (amtOpt (maxBenefitOf bs)) "$" ""

/-- Value passed to `updateRow("VF000061", ...)`: always a present
string, with the sentinel "Not Found" when no ortho maximum matched. -/
def updVF000061 (bs : List StediBenefit) : Option String :=
  some (match fmtAmt (amtOpt (orthoMaxOf bs)) "$" " (Ortho)" with
        | some s => s
        | none => "Not Found")

/-- Value passed to `updateRow("VF000028", ...)`: keyword lookup with the
hard-coded default "2x per Year (Standard)". -/
def updVF000028 (bs : List StediBenefit) : Option String :=
  some (jsOrD (findValue bs ["prophylaxis frequency", "exam frequency"])
              "2x per Year (Standard)")

/-- Value passed to `updateRow("VF000045", ...)`: waiting period in
months with the hard-coded default "None". -/
def updVF000045 (bs : List StediBenefit) : Option String :=
  some (match fmtAmt (amtOpt (majorWaitOf bs)) "" " Months" with
        | some s => s
        | none => "None")

/-- The full ordered sequence of `updateRow` calls the parser performs
(saiCode paired with the value argument; every call uses the default
`verified = true`). -/
def updatesOf (d : StediResponse) : List (String × Option String) :=
  [("VF000001", some (planNameOf d)),
   ("VF000002", groupNumberOf d),
   ("VF000003", effectiveDateOf d),
   ("VF000004", some (carrierNameOf d)),
   ("VF000005", memberIdOf d),
   ("VF000051", updVF000051 (benefitsOf d)),
   ("VF000052", updVF000052 (benefitsOf d)),
   ("VF000053", updVF000053 (benefitsOf d)),
   ("VF000060", updVF000060 (benefitsOf d)),
   ("VF000061", updVF000061 (benefitsOf d)),
   ("VF000010", findValue (benefitsOf d) ["prophy", "cleaning"]),
   ("VF000011", findValue (benefitsOf d) ["exam", "eval"]),
   ("VF000012", findValue (benefitsOf d) ["x-ray", "radiograph", "bitewing", "fms"]),
   ("VF000028", updVF000028 (benefitsOf d)),
   ("VF000020", findValue (benefitsOf d) ["restorative", "filling", "amalgam", "composite"]),
   ("VF000021", findValue (benefitsOf d) ["extraction"]),
   ("VF000022", findValue (benefitsOf d) ["scaling", "root planing", "periodontal maintenance", "periodontic"]),
   ("VF000030", findValue (benefitsOf d) ["crown"]),
   ("VF000031", findValue (benefitsOf d) ["bridge", "pontic"]),
   ("VF000032", findValue (benefitsOf d) ["denture"]),
   ("VF000033", findValue (benefitsOf d) ["root canal", "endodontic"]),
   ("VF000034", findValue (benefitsOf d) ["implant"]),
   ("VF000045", updVF000045 (benefitsOf d))]

/-- The verificationData result: the update sequence folded over the
fresh catalog copy. -/
def parseRowsOf (d : StediResponse) : List VerificationDataRow :=
  (updatesOf d).foldl (fun rows u => updateRow u.1 u.2 true rows)
    API_VERIFICATION_DATA

/-- The 47-character section separator used by the report. -/
def heavyBar : String :=
  "━━━━━━━━━━━━━━━━━━━━━━━━━━━━━━━━━━━━━━━━━━━━━━━"

/-- Benefits that look like procedures:
`b.procedureCode || b.name || (b.serviceTypes && b.serviceTypes.length > 0)`. -/
def procedureLikeOf (bs : List StediBenefit) : List StediBenefit :=
  bs.filter (fun b => strTruthy b.procedureCode || strTruthy b.name ||
    (match b.serviceTypes with
     | some sts => !sts.isEmpty
     | none => false))

/-- The four fixed report sections with their keyword sets. -/
def reportSections : List (String × List String) :=
  [("Preventive Services",
    ["preventive", "cleaning", "eval", "exam", "x-ray", "prophy", "fluoride"]),
   ("Basic Services",
    ["restorative", "basic", "filling", "amalgam", "composite", "extraction",
     "simple extraction"]),
   ("Major Services",
    ["major", "prosthodontics", "crown", "bridge", "denture", "endodontic",
     "root canal", "surgical"]),
   ("Periodontal Services",
    ["periodontic", "scaling", "root planing", "maintenance"])]

/-- One rendered benefit line inside a section. -/
def sectionLine (b : StediBenefit) : String :=
  let nm := jsOrD (jsOr b.name (b.serviceTypes.bind List.head?)) "Procedure"
  let code := jsOrD b.procedureCode "N/A"
  let amount :=
    match b.benefitAmount with
    | some a => if a == "" then "$0.00" else "$" ++ a
    | none => "$0.00"
  let percent0 :=
    if strTruthy b.benefitPercent then strOf b.benefitPercent ++ "%"
    else if b.code == some "1" then "Covered" else "N/A"
  let percent := if percent0 == "100%" then "100% (Covered)" else percent0
  padEnd code 6 ++ " " ++ padEnd nm 30 ++ " " ++ padEnd amount 10 ++
    " $0.00     ✓ " ++ percent ++ " Coverage\n"

/-- One section's contribution to the report (empty when no benefit
matched its keywords). -/
def sectionBlock (bs : List StediBenefit) (sec : String × List String) : String :=
  let sb := (procedureLikeOf bs).filter (fun b =>
    sec.2.any (fun kw => nameIncludesKw b kw || serviceTypesIncludeKw b kw))
  if 0 < sb.length then
    sec.1 ++ ":\n" ++ heavyBar ++ "\n" ++
      sb.foldl (fun acc b => acc ++ sectionLine b) "" ++ "\n"
  else ""

/-- All four sections rendered in order. -/
def sectionsTextOf (bs : List StediBenefit) : String :=
  reportSections.foldl (fun acc sec => acc ++ sectionBlock bs sec) ""

/-- One line of the fallback flat table (empty for unnamed benefits). -/
def fallbackLine (b : StediBenefit) : String :=
  let nm := jsOrD (jsOr b.name (b.serviceTypes.bind List.head?)) "Unknown"
  let detail := String.intercalate " "
    (([if strTruthy b.benefitPercent then strOf b.benefitPercent ++ "%" else "",
       if strTruthy b.benefitAmount then "$" ++ strOf b.benefitAmount else "",
       if strTruthy b.coverageLevel then "(" ++ strOf b.coverageLevel ++ ")" else ""
      ]).filter (fun s => !(s == "")))
  if !(nm == "Unknown") then padEnd nm 40 ++ " " ++ detail ++ "\n" else ""

/-- The fallback flat table over the first 20 benefits. -/
def fallbackTableOf (bs : List StediBenefit) : String :=
  "Detailed Benefits Table:\n" ++ heavyBar ++ "\n" ++
    (bs.take 20).foldl (fun acc b => acc ++ fallbackLine b) ""

/-- The closing annual-benefit-status block. -/
def annualStatusOf (d : StediResponse) : String :=
  "\nANNUAL BENEFIT STATUS:\n" ++ heavyBar ++ "\n" ++
  "Maximum Benefit:        " ++
    (match amtOpt (maxBenefitOf (benefitsOf d)) with
     | some a => if a == "" then "Not Found" else "$" ++ a
     | none => "Not Found") ++ "\n" ++
  "Deductible:             " ++
    (match amtOpt (indDeductibleOf (benefitsOf d)) with
     | some a => if a == "" then "Not Found" else "$" ++ a
     | none => "Not Found") ++ "\n" ++
  "Plan Status:            " ++
    jsOrD (jsOr ((d.planStatus.bind List.head?).bind (fun p => p.description))
                (d.plan.bind (fun p => p.status)))
          "Active" ++ "\n" ++
  "Member ID:              " ++ jsOrD (memberIdOf d) "N/A" ++ "\n"

/-- The codeAnalysis report: header, sections, the fallback table when
no section rendered (detected by searching for the separator bar), and
the annual status block. -/
def codeAnalysisOf (d : StediResponse) : String :=
  let top := "COVERAGE BY CODE VIEW - DETAILED ANALYSIS (STEDI API LIVE DATA)\n\n" ++
    sectionsTextOf (benefitsOf d)
  let withTable :=
    if jsIncludes top heavyBar then top else top ++ fallbackTableOf (benefitsOf d)
  withTable ++ annualStatusOf d

/-- parseStediResponse: `stediJson || {}` (a `null`/absent payload is the
empty object), then the row updates and the report. -/
def parseStediResponse (stediJson : Option StediResponse) : StediParseOutcome :=
  { verificationData := parseRowsOf (stediJson.getD {})
    codeAnalysis := codeAnalysisOf (stediJson.getD {}) }

/-! ### Normalizer: derived notions used by the claims -/

/-- Look a row up by saiCode. -/
def findRow (rows : List VerificationDataRow) (saiCode : String) :
    Option VerificationDataRow :=
  rows.find? (fun r => r.saiCode == saiCode)

/-- A value `updateRow` refuses: absent, empty, or the "Not Found"
sentinel. -/
def valueUnusable : Option String → Bool
  | none => true
  | some s => s == "" || s == "Not Found"

/-- The value the parser passes to `updateRow` for a given saiCode
(`none` when the parser never updates that code). -/
def updateValueFor (d : StediResponse) (c : String) : Option String :=
  match (updatesOf d).find? (fun u => u.1 == c) with
  | some u => u.2
  | none => none

/-- The four rows whose update value carries a hard-coded fallback
default, so a failed match still yields a truthy value. -/
def fallbackCodes : List String :=
  ["VF000001", "VF000004", "VF000028", "VF000045"]

/-- The updated rows whose value has no hard-coded fallback: a failed
match reaches `updateRow` as an unusable value. -/
def plainMatchCodes : List String :=
  ["VF000002", "VF000003", "VF000005", "VF000051", "VF000052", "VF000053",
   "VF000060", "VF000061", "VF000010", "VF000011", "VF000012", "VF000020",
   "VF000021", "VF000022", "VF000030", "VF000031", "VF000032", "VF000033",
   "VF000034"]

/-- Scenario D payload: one benefit with code D, name Annual Maximum,
amount 1200. -/
def scenarioDResponse : StediResponse :=
  { benefits := some [{ code := some "D", name := some "Annual Maximum", benefitAmount := some "1200" }] }

/-- A payload with a single benefit whose name matches no report
section keywords. -/
def unlistedBenefitResponse : StediResponse :=
  { benefits := some [{ name := some "Unlisted Item", benefitAmount := some "50" }] }

/-- A payload supplying the literal sentinel "Not Found" as plan name. -/
def notFoundPlanResponse : StediResponse :=
  { plan := some { planName := some "Not Found" } }

/-! ## Status Deriver: lemmas -/

theorem stageOrderOK_applyTxnCore (s : VerificationStatus) (ty : TxnType)
    (st : TxnStatus) (h : stageOrderOK s = true) :
    stageOrderOK (applyTxnCore s ty st) = true := by
  revert h
  revert s ty st
  decide

theorem stageOrderOK_foldl (l : List Transaction) (s : VerificationStatus)
    (h : stageOrderOK s = true) : stageOrderOK (l.foldl applyTxn s) = true := by
  induction l generalizing s with
  | nil => exact h
  | cons t ts ih =>
    exact ih _ (stageOrderOK_applyTxnCore s t.type t.status h)

theorem beforeOK_of_compare_le (x y : Transaction) (hc : jsCompare x y ≤ 0) :
    beforeOK x y = true := by
  unfold jsCompare at hc
  unfold beforeOK
  cases hx : x.startTime <;> cases hy : y.startTime <;> simp_all <;> omega

theorem beforeOK_of_compare_gt (x y : Transaction) (hc : ¬ jsCompare x y ≤ 0) :
    beforeOK y x = true := by
  unfold jsCompare at hc
  unfold beforeOK
  cases hx : x.startTime <;> cases hy : y.startTime <;> simp_all <;> omega

theorem beforeOK_step (x y z : Transaction) (hc : jsCompare x y ≤ 0)
    (hyz : beforeOK y z = true) : beforeOK x z = true := by
  unfold jsCompare at hc
  unfold beforeOK at *
  cases hx : x.startTime <;> cases hy : y.startTime <;> cases hz : z.startTime <;>
    simp_all <;> omega

theorem mem_insertTxn {z x : Transaction} :
    ∀ {l : List Transaction}, z ∈ insertTxn x l ↔ z = x ∨ z ∈ l := by
  intro l
  induction l with
  | nil => simp [insertTxn]
  | cons y ys ih =>
    unfold insertTxn
    by_cases hc : jsCompare x y ≤ 0 <;> simp [hc, ih] <;> tauto

theorem pairwise_insertTxn (x : Transaction) (l : List Transaction)
    (h : l.Pairwise (fun a b => beforeOK a b = true)) :
    (insertTxn x l).Pairwise (fun a b => beforeOK a b = true) := by
  induction l with
  | nil => simp [insertTxn]
  | cons y ys ih =>
    rw [List.pairwise_cons] at h
    obtain ⟨hy, hys⟩ := h
    unfold insertTxn
    by_cases hc : jsCompare x y ≤ 0
    · simp only [hc, if_pos]
      rw [List.pairwise_cons]
      refine ⟨?_, ?_⟩
      · intro z hz
        rcases List.mem_cons.mp hz with rfl | hz
        · exact beforeOK_of_compare_le x z hc
        · exact beforeOK_step x y z hc (hy z hz)
      · rw [List.pairwise_cons]
        exact ⟨hy, hys⟩
    · simp only [hc, if_neg, not_false_iff]
      rw [List.pairwise_cons]
      refine ⟨?_, ih hys⟩
      intro z hz
      rcases mem_insertTxn.mp hz with rfl | hz
      · exact beforeOK_of_compare_gt z y hc
      · exact hy z hz

theorem sortTransactions_pairwise (l : List Transaction) :
    (sortTransactions l).Pairwise (fun a b => beforeOK a b = true) := by
  induction l with
  | nil => simp [sortTransactions]
  | cons x xs ih => exact pairwise_insertTxn x _ ih

theorem insertTxn_perm (x : Transaction) (l : List Transaction) :
    List.Perm (insertTxn x l) (x :: l) := by
  induction l with
  | nil => rfl
  | cons y ys ih =>
    unfold insertTxn
    by_cases hc : jsCompare x y ≤ 0
    · simp [hc]
    · simp only [hc, if_neg, not_false_iff]
      exact (List.Perm.cons y ih).trans (List.Perm.swap x y ys)

theorem sortTransactions_perm (l : List Transaction) : List.Perm (sortTransactions l) l := by
  induction l with
  | nil => rfl
  | cons x xs ih => exact (insertTxn_perm x _).trans (List.Perm.cons x ih)

theorem applyTxn_canonTxn (s : VerificationStatus) (t : Transaction) :
    applyTxn s (canonTxn t) = applyTxn s t := by
  cases t with
  | mk id rid ty st stt pid pn => cases ty <;> rfl

theorem canonTxn_startTime (t : Transaction) :
    (canonTxn t).startTime = t.startTime := rfl

theorem jsCompare_canonTxn (a b : Transaction) :
    jsCompare (canonTxn a) (canonTxn b) = jsCompare a b := rfl

theorem insertTxn_map_canonTxn (x : Transaction) (l : List Transaction) :
    insertTxn (canonTxn x) (l.map canonTxn) = (insertTxn x l).map canonTxn := by
  induction l with
  | nil => rfl
  | cons y ys ih =>
    simp only [List.map_cons]
    unfold insertTxn
    rw [jsCompare_canonTxn]
    by_cases hc : jsCompare x y ≤ 0 <;> simp [hc, ih]

theorem sortTransactions_map_canonTxn (l : List Transaction) :
    sortTransactions (l.map canonTxn) = (sortTransactions l).map canonTxn := by
  induction l with
  | nil => rfl
  | cons x xs ih =>
    simp only [List.map_cons]
    unfold sortTransactions
    rw [ih, insertTxn_map_canonTxn]

theorem foldl_map_canonTxn (l : List Transaction) (s : VerificationStatus) :
    (l.map canonTxn).foldl applyTxn s = l.foldl applyTxn s := by
  induction l generalizing s with
  | nil => rfl
  | cons t ts ih =>
    simp only [List.map_cons, List.foldl_cons]
    rw [applyTxn_canonTxn]
    exact ih _

theorem derive_map_canonTxn (l : List Transaction) :
    deriveVerificationStatusFromTransactions (l.map canonTxn) =
      deriveVerificationStatusFromTransactions l := by
  unfold deriveVerificationStatusFromTransactions
  rw [sortTransactions_map_canonTxn, foldl_map_canonTxn]

theorem canonTxn_swapCallFax (t : Transaction) :
    canonTxn (swapCallFax t) = canonTxn t := by
  cases t with
  | mk id rid ty st stt pid pn => cases ty <;> rfl

theorem getStage_applyTxnCore_frame (s : VerificationStatus) (ty : TxnType)
    (st : TxnStatus) (g : Stage) (h : g ∉ updateSet ty st) :
    getStage (applyTxnCore s ty st) g = getStage s g := by
  revert h
  revert s ty st g
  decide

/-! ## Status Deriver: claims -/

/-- C3: For every transaction list (any order, any completeness, possibly
empty), the status vector returned by
`deriveVerificationStatusFromTransactions` satisfies the stage-ordering
invariant: a later stage (apiVerification, aiAnalysisAndCall, saveToPMS)
is never `completed` while an earlier stage in the fixed order
fetchPMS → apiVerification → aiAnalysisAndCall → saveToPMS is still
`pending`. -/
theorem claim_C3_stage_ordering (transactions : List Transaction) :
    stageOrderOK (deriveVerificationStatusFromTransactions transactions) = true := by
  unfold deriveVerificationStatusFromTransactions
  exact stageOrderOK_foldl _ _ (by decide)

/-- C4: `deriveVerificationStatusFromTransactions` folds the transactions
in ascending `startTime` order, and every transaction with missing
`startTime` sorts after every timestamped one (placed at the end, never
at the front): the sorted list is a permutation of the input, is
pairwise ordered by `beforeOK` (later element timestamped → earlier
element timestamped and not later), and the derived status is exactly
the fold of the stage updates over that sorted list. -/
theorem claim_C4_sort_order (transactions : List Transaction) :
    (sortTransactions transactions).Pairwise (fun a b => beforeOK a b = true) ∧
    List.Perm (sortTransactions transactions) transactions ∧
    deriveVerificationStatusFromTransactions transactions =
      (sortTransactions transactions).foldl applyTxn initialStatus :=
  ⟨sortTransactions_pairwise transactions, sortTransactions_perm transactions, rfl⟩

/-- C5: A single SAVE/SUCCESS transaction alone (no prior stage
transactions recorded) makes all four stages `completed`: the deriver
trusts the highest-observed stage even with a gapped log. -/
theorem claim_C5_save_alone (t : Transaction) (hty : t.type = .SAVE)
    (hst : t.status = .SUCCESS) :
    deriveVerificationStatusFromTransactions [t] =
      { fetchPMS := .completed, apiVerification := .completed
        aiAnalysisAndCall := .completed, saveToPMS := .completed } := by
  cases t with
  | mk id rid ty st stt pid pn =>
    cases hty
    cases hst
    rfl

/-- C5 witness: the concrete Scenario C transaction list. -/
theorem claim_C5_save_alone_witness :
    deriveVerificationStatusFromTransactions
      [{ type := .SAVE, status := .SUCCESS, startTime := some 3 }] =
      { fetchPMS := .completed, apiVerification := .completed
        aiAnalysisAndCall := .completed, saveToPMS := .completed } :=
  claim_C5_save_alone _ rfl rfl

/-- C6: Replacing the type of any one transaction from CALL to FAX (or
FAX to CALL), all else equal, leaves the derived status unchanged: both
types drive identical stage updates. -/
theorem claim_C6_call_fax_interchangeable (pre post : List Transaction)
    (t : Transaction) :
    deriveVerificationStatusFromTransactions (pre ++ swapCallFax t :: post) =
      deriveVerificationStatusFromTransactions (pre ++ t :: post) := by
  have h1 := derive_map_canonTxn (pre ++ swapCallFax t :: post)
  have h2 := derive_map_canonTxn (pre ++ t :: post)
  rw [← h1, ← h2]
  simp only [List.map_append, List.map_cons, canonTxn_swapCallFax]

/-- C7: Folding one more transaction onto the fold of a sorted
transaction list changes only the stages in that transaction's
deterministic update set; every stage outside the set keeps its
previously derived value exactly (so in particular no untouched stage
falls back from `completed` to `pending` or `in_progress`). -/
theorem claim_C7_frame (transactions : List Transaction) (t : Transaction)
    (g : Stage) (h : g ∉ updateSet t.type t.status) :
    getStage ((sortTransactions transactions ++ [t]).foldl applyTxn initialStatus) g =
      getStage ((sortTransactions transactions).foldl applyTxn initialStatus) g := by
  rw [List.foldl_append]
  exact getStage_applyTxnCore_frame _ t.type t.status g h

/-- C7 witness: appending a FETCH/SUCCESS transaction leaves the
untouched saveToPMS stage unchanged. -/
theorem claim_C7_frame_witness :
    Stage.saveToPMS ∉ updateSet TxnType.FETCH TxnStatus.SUCCESS ∧
    getStage ((sortTransactions [] ++
        [{ type := .FETCH, status := .SUCCESS : Transaction }]).foldl
        applyTxn initialStatus) .saveToPMS =
      getStage ((sortTransactions []).foldl applyTxn initialStatus) .saveToPMS :=
  ⟨by decide, claim_C7_frame [] { type := .FETCH, status := .SUCCESS } .saveToPMS (by decide)⟩

/-! ## Benefit Normalizer: lemmas -/

theorem applyUpdate_saiCode (v : Option String) (vf : Bool)
    (r : VerificationDataRow) : (applyUpdate v vf r).saiCode = r.saiCode := by
  cases v with
  | none => simp [applyUpdate]
  | some s =>
    simp only [applyUpdate]
    split <;> rfl

theorem findRow_updateRow (c c2 : String) (v : Option String) (vf : Bool)
    (rows : List VerificationDataRow) :
    findRow (updateRow c2 v vf rows) c =
      if c2 = c then (findRow rows c).map (applyUpdate v vf) else findRow rows c := by
  induction rows with
  | nil => by_cases h : c2 = c <;> simp [updateRow, findRow, h]
  | cons r rs ih =>
    unfold updateRow
    by_cases h1 : r.saiCode = c2
    · rw [if_pos (by simp [h1])]
      by_cases h2 : c2 = c
      · subst h2
        rw [if_pos rfl]
        unfold findRow
        rw [List.find?_cons_of_pos _ (by simp [applyUpdate_saiCode, h1]),
            List.find?_cons_of_pos _ (by simp [h1])]
        simp
      · rw [if_neg h2]
        unfold findRow
        rw [List.find?_cons_of_neg _ (by simp [applyUpdate_saiCode, h1]; exact h2),
            List.find?_cons_of_neg _ (by simp [h1]; exact h2)]
    · rw [if_neg (by simp [h1])]
      by_cases h3 : r.saiCode = c
      · have h2 : ¬ c2 = c := fun hh => h1 (h3.trans hh.symm)
        rw [if_neg h2]
        unfold findRow
        rw [List.find?_cons_of_pos _ (by simp [h3]),
            List.find?_cons_of_pos _ (by simp [h3])]
      · unfold findRow
        rw [List.find?_cons_of_neg _ (by simp [h3]),
            List.find?_cons_of_neg _ (by simp [h3])]
        exact ih

theorem findRow_foldl (us : List (String × Option String)) (c : String)
    (rows : List VerificationDataRow) :
    findRow (us.foldl (fun rows u => updateRow u.1 u.2 true rows) rows) c =
      us.foldl
        (fun acc u => if u.1 = c then acc.map (applyUpdate u.2 true) else acc)
        (findRow rows c) := by
  induction us generalizing rows with
  | nil => rfl
  | cons u us ih =>
    simp only [List.foldl_cons]
    rw [ih, findRow_updateRow]

theorem applyUpdate_unusable_proj (v : Option String) (r : VerificationDataRow)
    (hv : valueUnusable v = true) :
    ((applyUpdate v true r).missing, (applyUpdate v true r).aiCallValue) =
      ("Y", "") := by
  cases v with
  | none => rfl
  | some s =>
    simp only [valueUnusable, Bool.or_eq_true, beq_iff_eq] at hv
    unfold applyUpdate
    rcases hv with h | h <;> simp [h]

theorem map_map_applyUpdate_unusable (v : Option String)
    (o : Option VerificationDataRow) (hv : valueUnusable v = true)
    (ho : o.isSome = true) :
    (o.map (applyUpdate v true)).map (fun r => (r.missing, r.aiCallValue)) =
      some ("Y", "") := by
  cases o with
  | none => simp at ho
  | some r =>
    simp only [Option.map_some']
    rw [applyUpdate_unusable_proj v r hv]

theorem applyUpdate_usable (v : String) (r : VerificationDataRow)
    (h1 : ¬ v = "") (h2 : ¬ v = "Not Found") :
    applyUpdate (some v) true r =
      { r with aiCallValue := v, missing := "N", verifiedBy := "API" } := by
  simp [applyUpdate, h1, h2]

theorem map_map_applyUpdate_usable (v : String) (o : Option VerificationDataRow)
    (h1 : ¬ v = "") (h2 : ¬ v = "Not Found") (ho : o.isSome = true) :
    (o.map (applyUpdate (some v) true)).map
        (fun r => (r.missing, r.verifiedBy, r.aiCallValue == "")) =
      some ("N", "API", false) := by
  cases o with
  | none => simp at ho
  | some r =>
    simp only [Option.map_some']
    rw [applyUpdate_usable v r h1 h2]
    simp [h1]

theorem jsOrD_ne_empty (a : Option String) (dflt : String) (hd : ¬ dflt = "") :
    ¬ jsOrD a dflt = "" := by
  unfold jsOrD
  cases a with
  | none => exact hd
  | some s =>
    by_cases h : s = ""
    · simp [h]
      exact hd
    · simp [h]

theorem planNameOf_ne_empty (d : StediResponse) : ¬ planNameOf d = "" :=
  jsOrD_ne_empty _ _ (by decide)

theorem carrierNameOf_ne_empty (d : StediResponse) : ¬ carrierNameOf d = "" :=
  jsOrD_ne_empty _ _ (by decide)

theorem append_ne_empty_of_right (a b : String) (hb : ¬ b.length = 0) :
    ¬ (a ++ b) = "" := by
  intro h
  have hl := congrArg String.length h
  rw [String.length_append] at hl
  have h0 : ("" : String).length = 0 := rfl
  rw [h0] at hl
  omega

theorem annualStatusOf_length_ne_zero (d : StediResponse) :
    ¬ (annualStatusOf d).length = 0 := by
  unfold annualStatusOf
  simp only [String.length_append]
  have h24 : ("\nANNUAL BENEFIT STATUS:\n" : String).length = 24 := rfl
  omega

theorem codeAnalysisOf_ne_empty (d : StediResponse) : ¬ codeAnalysisOf d = "" := by
  unfold codeAnalysisOf
  simp only []
  exact append_ne_empty_of_right _ _ (annualStatusOf_length_ne_zero d)

theorem parseStedi_verificationData (stediJson : Option StediResponse) :
    (parseStediResponse stediJson).verificationData =
      parseRowsOf (stediJson.getD {}) := by
  simp only [parseStediResponse]

theorem parseStedi_codeAnalysis (stediJson : Option StediResponse) :
    (parseStediResponse stediJson).codeAnalysis =
      codeAnalysisOf (stediJson.getD {}) := by
  simp only [parseStediResponse]

/-! ## Benefit Normalizer: claims -/

/-- C1 counterexample: on the raw response `{}` the normalizer does NOT
return the catalog unmodified with every row missing: row VF000001
comes back `missing = "N"` with the fabricated value "Active Plan"
(while the template row holds "Blue Cross Dental Plus"). -/
theorem claim_C1_counterexample :
    (findRow (parseStediResponse (some {})).verificationData "VF000001").map
        (fun r => (r.missing, r.aiCallValue)) = some ("N", "Active Plan") := by
  decide

/-- C1 (amended): on the raw response `{}` the normalizer keeps the
catalog's row identities and `preStepValue`s, marks every row
`missing = "Y"` EXCEPT the four rows whose extraction carries a
hard-coded fallback (VF000001 "Active Plan", VF000004 "Insurance
Carrier", VF000028 "2x per Year (Standard)", VF000045 "None"), which
come back `missing = "N"`, and the report is a non-empty string. -/
theorem claim_C1_empty_response :
    ((parseStediResponse (some {})).verificationData.map (fun r => r.saiCode) =
      API_VERIFICATION_DATA.map (fun r => r.saiCode)) ∧
    ((parseStediResponse (some {})).verificationData.map (fun r => r.preStepValue) =
      API_VERIFICATION_DATA.map (fun r => r.preStepValue)) ∧
    ((parseStediResponse (some {})).verificationData.all (fun r =>
        r.missing == (if fallbackCodes.contains r.saiCode then "N" else "Y"))) =
      true ∧
    ¬ (parseStediResponse (some {})).codeAnalysis = "" :=
  ⟨by decide, by decide, by decide, by decide⟩

/-- C2 counterexample: with the raw response `{}` the benefit list is
empty, so no matching predicate can match, yet row VF000028 comes back
`missing = "N"` with the hard-coded default — contradicting the claim
that every unmatched row keeps `missing = "Y"`. -/
theorem claim_C2_counterexample :
    benefitsOf {} = [] ∧
    (findRow (parseStediResponse (some {})).verificationData "VF000028").map
        (fun r => (r.missing, r.aiCallValue)) =
      some ("N", "2x per Year (Standard)") :=
  ⟨rfl, by decide⟩

/-- C2 (amended): for every raw response and every updated catalog row
WITHOUT a hard-coded fallback default (all updated rows except
VF000001, VF000004, VF000028, VF000045), if the value the matcher
produces is unusable (absent, empty, or the "Not Found" sentinel — in
particular whenever no benefit matches), the output row has
`missing = "Y"` and an empty `aiCallValue`: its `preStepValue` is never
taken as a fresh verification result. -/
theorem claim_C2_no_match_rows (d : StediResponse) (c : String)
    (hc : c ∈ plainMatchCodes)
    (hv : valueUnusable (updateValueFor d c) = true) :
    (findRow (parseStediResponse (some d)).verificationData c).map
        (fun r => (r.missing, r.aiCallValue)) = some ("Y", "") := by
  rw [parseStedi_verificationData]
  simp only [Option.getD_some]
  fin_cases hc <;>
  · simp [updateValueFor, updatesOf, List.find?] at hv
    simp only [parseRowsOf]
    rw [findRow_foldl]
    simp only [updatesOf, List.foldl_cons, List.foldl_nil, String.reduceEq,
      reduceIte]
    exact map_map_applyUpdate_unusable _ _ hv (by decide)

/-- C2 witness: the empty response and row VF000002 (Group Number). -/
theorem claim_C2_no_match_rows_witness :
    ("VF000002" ∈ plainMatchCodes) ∧
    valueUnusable (updateValueFor {} "VF000002") = true ∧
    (findRow (parseStediResponse (some {})).verificationData "VF000002").map
        (fun r => (r.missing, r.aiCallValue)) = some ("Y", "") :=
  ⟨by decide, by decide, claim_C2_no_match_rows {} "VF000002" (by decide) (by decide)⟩

/-- C8: on the raw response with the single benefit
`{code: "D", name: "Annual Maximum", benefitAmount: "1200"}` the output
row VF000060 has `aiCallValue = "$1200"` and `missing = "N"`. -/
theorem claim_C8_annual_maximum :
    (findRow (parseStediResponse (some scenarioDResponse)).verificationData
        "VF000060").map (fun r => (r.aiCallValue, r.missing)) =
      some ("$1200", "N") := by
  decide

/-- C9: for every raw response whose extracted benefit list is
non-empty, the codeAnalysis report is a non-empty string (the header and
the closing annual-status block are appended unconditionally, and the
fallback flat table covers the case where no section keyword matches). -/
theorem claim_C9_report_nonempty (stediJson : Option StediResponse)
    (h : ¬ benefitsOf (stediJson.getD {}) = []) :
    ¬ (parseStediResponse stediJson).codeAnalysis = "" := by
  rw [parseStedi_codeAnalysis]
  exact codeAnalysisOf_ne_empty _

/-- C9 witness: a one-benefit payload whose keywords match no section. -/
theorem claim_C9_report_nonempty_witness :
    ¬ (parseStediResponse (some unlistedBenefitResponse)).codeAnalysis = "" :=
  claim_C9_report_nonempty _ (by decide)

/-- C10 counterexample: a payload supplying the literal plan name
"Not Found" makes row VF000001 come back `missing = "Y"`,
`verifiedBy = "-"`, empty `aiCallValue` — so the rows are NOT always
verified for every input. -/
theorem claim_C10_counterexample :
    (findRow (parseStediResponse (some notFoundPlanResponse)).verificationData
        "VF000001").map (fun r => (r.missing, r.verifiedBy, r.aiCallValue)) =
      some ("Y", "-", "") := by
  decide

/-- C10 (amended): for every input (including null and `{}`) whose
extracted plan-name and carrier-name values are not the literal
sentinel "Not Found", rows VF000001 and VF000004 always come back
`missing = "N"`, `verifiedBy = "API"`, with a non-empty `aiCallValue`,
because the extraction chains fall back to the fabricated defaults
"Active Plan" and "Insurance Carrier" when the payload supplies
nothing. -/
theorem claim_C10_plan_carrier (stediJson : Option StediResponse)
    (h1 : ¬ planNameOf (stediJson.getD {}) = "Not Found")
    (h2 : ¬ carrierNameOf (stediJson.getD {}) = "Not Found") :
    (findRow (parseStediResponse stediJson).verificationData "VF000001").map
        (fun r => (r.missing, r.verifiedBy, r.aiCallValue == "")) =
      some ("N", "API", false) ∧
    (findRow (parseStediResponse stediJson).verificationData "VF000004").map
        (fun r => (r.missing, r.verifiedBy, r.aiCallValue == "")) =
      some ("N", "API", false) := by
  rw [parseStedi_verificationData]
  refine ⟨?_, ?_⟩
  · simp only [parseRowsOf]
    rw [findRow_foldl]
    simp only [updatesOf, List.foldl_cons, List.foldl_nil, String.reduceEq,
      reduceIte]
    exact map_map_applyUpdate_usable _ _
      (planNameOf_ne_empty (stediJson.getD {})) h1 (by decide)
  · simp only [parseRowsOf]
    rw [findRow_foldl]
    simp only [updatesOf, List.foldl_cons, List.foldl_nil, String.reduceEq,
      reduceIte]
    exact map_map_applyUpdate_usable _ _
      (carrierNameOf_ne_empty (stediJson.getD {})) h2 (by decide)

/-- C10 witness: the null payload gets both fabricated defaults. -/
theorem claim_C10_plan_carrier_witness :
    (findRow (parseStediResponse none).verificationData "VF000001").map
        (fun r => (r.missing, r.verifiedBy, r.aiCallValue == "")) =
      some ("N", "API", false) ∧
    (findRow (parseStediResponse none).verificationData "VF000004").map
        (fun r => (r.missing, r.verifiedBy, r.aiCallValue == "")) =
      some ("N", "API", false) :=
  claim_C10_plan_carrier none (by decide) (by decide)

end Pipeline
